import Mathlib

/-!
Shallow embedding of `packages/shared/python-client/setup.py` from the
asyncAgent repository.

The file consists of a single `setup(...)` call.  We model:
  * the literal metadata constants passed to `setup`;
  * satisfaction of the `python_requires` specifier `">=3.8"` by a Python
    interpreter version, modelled as a (major, minor) pair with the usual
    lexicographic ordering of PEP 440 release segments;
  * parsing of the `install_requires` entries `"<name>>=<X.Y.Z>"`;
  * `find_packages(where=".", exclude=["tests", "tests.*"])`, with the
    filesystem abstracted as the list of candidate package names discovery
    would yield before include/exclude filtering, and the setuptools
    include/exclude filter implemented via `fnmatch`-style glob matching;
  * the guarded `long_description` expression
    `open("README.md").read() if os.path.exists("README.md") else ""`,
    with the filesystem state carrying the optional contents of README.md
    and `open` on a missing file modelled as an error in `Except`.
-/

namespace AsyncAgentClient

/-- The `VERSION` constant of setup.py (line 4). -/
def VERSION : String := "0.1.0"

/-- A Python interpreter version, as a (major, minor) release pair. -/
structure PyVersion where
  major : Nat
  minor : Nat
deriving DecidableEq

/-- PEP 440 ordering of two-component release versions: lexicographic on
(major, minor). -/
def PyVersion.le (a b : PyVersion) : Bool :=
  Nat.blt a.major b.major || (Nat.beq a.major b.major && Nat.ble a.minor b.minor)

/-- Does string `s` start with `pre`?  Charwise model of `str.startswith`. -/
def strStartsWith (s pre : String) : Bool := pre.toList.isPrefixOf s.toList

/-- Drop the first `n` characters of `s`. -/
def strDrop (s : String) (n : Nat) : String := ⟨s.toList.drop n⟩

/-- Splitting on a non-empty separator, charwise: `acc` holds the reversed
current chunk.  Each step consumes at least one character, so fuel above the
string length makes the fuel-exhaustion branch unreachable. -/
def splitOnAux : Nat → List Char → List Char → List Char → List (List Char)
  | 0, _, l, acc => [acc.reverse ++ l]
  | _ + 1, _, [], acc => [acc.reverse]
  | n + 1, sep, c :: cs, acc =>
    if !sep.isEmpty && sep.isPrefixOf (c :: cs) then
      acc.reverse :: splitOnAux n sep (List.drop sep.length (c :: cs)) []
    else
      splitOnAux n sep cs (c :: acc)

/-- `splitOnStr sep s`: the chunks of `s` between occurrences of `sep`,
the charwise model of `str.split(sep)`. -/
def splitOnStr (sep s : String) : List String :=
  (splitOnAux (s.toList.length + 1) sep.toList s.toList []).map (fun l => ⟨l⟩)

/-- The decimal value of a digit character, if it is one. -/
def charDigit (c : Char) : Option Nat :=
  if 48 ≤ c.toNat && c.toNat ≤ 57 then some (c.toNat - 48) else none

/-- Accumulate the decimal value of a digit list; fails on a non-digit. -/
def parseNatAux : List Char → Nat → Option Nat
  | [], acc => some acc
  | c :: cs, acc =>
    match charDigit c with
    | some d => parseNatAux cs (acc * 10 + d)
    | none => none

/-- Parse a non-empty all-digit string as a natural number. -/
def parseNat (s : String) : Option Nat :=
  match s.toList with
  | [] => none
  | l => parseNatAux l 0

/-- Parse a dotted two-component version string such as "3.8". -/
def parseVersion (s : String) : Option PyVersion :=
  match (splitOnStr "." s).mapM parseNat with
  | some [a, b] => some ⟨a, b⟩
  | _ => none

/-- Satisfaction of a `">=X.Y"` version specifier by an interpreter version,
the specifier form used by the `python_requires` field. -/
def satisfiesSpec (spec : String) (v : PyVersion) : Bool :=
  if strStartsWith spec ">=" then
    match parseVersion (strDrop spec 2) with
    | some w => PyVersion.le w v
    | none => false
  else false

/-- The `python_requires` argument of the setup call (line 15). -/
def python_requires : String := ">=3.8"

/-- The `install_requires` argument of the setup call (lines 16-20). -/
def install_requires : List String :=
  ["httpx>=0.23.0", "attrs>=21.3.0", "python-dateutil>=2.8.0"]

/-- The `classifiers` argument of the setup call (lines 21-31). -/
def classifiers : List String :=
  ["Development Status :: 3 - Alpha",
   "Intended Audience :: Developers",
   "License :: OSI Approved :: MIT License",
   "Programming Language :: Python :: 3",
   "Programming Language :: Python :: 3.8",
   "Programming Language :: Python :: 3.9",
   "Programming Language :: Python :: 3.10",
   "Programming Language :: Python :: 3.11",
   "Programming Language :: Python :: 3.12"]

/-- The `keywords` argument of the setup call (line 32). -/
def keywords : String := "async-agent api-client openapi"

/-- Parse a dotted version string of any number of components, e.g. "0.23.0". -/
def parseDottedVersion (s : String) : Option (List Nat) :=
  (splitOnStr "." s).mapM parseNat

/-- Characters that begin or separate version-specifier operators in a PEP 508
requirement string. -/
def opChars : List Char := ['<', '>', '=', '!', '~', ',']

/-- Parse a requirement of the exact shape `"<name>>=<version>"` carrying a
single lower-bound constraint and nothing else: the parse fails if the string
does not split as one name and one dotted numeric version around a single
">=", or if the name itself contains specifier-operator characters. -/
def parseRequirement (s : String) : Option (String × List Nat) :=
  match splitOnStr ">=" s with
  | [nm, ver] =>
    if nm.toList.all (fun c => !(opChars.contains c)) then
      (parseDottedVersion ver).map (fun v => (nm, v))
    else none
  | _ => none

/-- Fuel-indexed glob matching of a pattern over characters: `*` matches any
sequence, `?` matches one character, every other character matches itself
(the fragment of Python `fnmatch` semantics exercised by the patterns of the
setup call, which use no character classes).  Each recursive call strictly
decreases the summed length of pattern and string, so any fuel above that sum
makes the fuel-exhaustion branch unreachable. -/
def globMatchAux : Nat → List Char → List Char → Bool
  | 0, _, _ => false
  | n + 1, pat, s =>
    match pat, s with
    | [], [] => true
    | [], _ :: _ => false
    | p :: ps, [] => p == '*' && globMatchAux n ps []
    | p :: ps, c :: cs =>
      if p == '*' then globMatchAux n ps (c :: cs) || globMatchAux n (p :: ps) cs
      else if p == '?' then globMatchAux n ps cs
      else p == c && globMatchAux n ps cs

/-- `fnmatch pat s`: does string `s` match glob pattern `pat`?  The fuel
`pat.length + s.length + 1` exceeds every chain of recursive calls. -/
def fnmatch (pat s : String) : Bool :=
  globMatchAux (pat.length + s.length + 1) pat.toList s.toList

/-- The default `include` patterns of `find_packages`. -/
def includePatterns : List String := ["*"]

/-- The `exclude` argument passed to `find_packages` (line 14). -/
def excludePatterns : List String := ["tests", "tests.*"]

/-- `find_packages(where, exclude, include)`: of the candidate package names
discovery yields under `where`, keep those matching some include pattern and
no exclude pattern.  The filesystem is abstracted as the candidate list. -/
def find_packages (candidates incl excl : List String) : List String :=
  candidates.filter (fun p =>
    incl.any (fun pat => fnmatch pat p) && !(excl.any (fun pat => fnmatch pat p)))

/-- The filesystem state the setup call reads: the contents of README.md when
it exists, and the candidate package names that package discovery under "."
yields before include/exclude filtering. -/
structure FileSystem where
  readme : Option String
  packageDirs : List String
deriving DecidableEq

/-- `os.path.exists("README.md")` in the given filesystem state. -/
def readmeExists (fs : FileSystem) : Bool := fs.readme.isSome

/-- `open("README.md").read()`: the contents when the file exists, an error
(a raised FileNotFoundError) when it does not. -/
def openReadme (fs : FileSystem) : Except String String :=
  match fs.readme with
  | some c => Except.ok c
  | none => Except.error "FileNotFoundError"

/-- The `long_description` expression of line 10:
`open("README.md").read() if os.path.exists("README.md") else ""`. -/
def long_description_value (fs : FileSystem) : Except String String :=
  if readmeExists fs then openReadme fs else Except.ok ""

/-- The keyword arguments received by the `setup` call, one field per keyword
of lines 7-32. -/
structure SetupArgs where
  name : String
  version : String
  description : String
  long_description : String
  long_description_content_type : String
  author : String
  license : String
  packages : List String
  python_requires : String
  install_requires : List String
  classifiers : List String
  keywords : String
deriving DecidableEq

/-- Evaluation of the whole `setup(...)` call in a filesystem state: computes
every keyword argument, propagating the possible error of the
`long_description` expression. -/
def setupCall (fs : FileSystem) : Except String SetupArgs :=
  (long_description_value fs).map (fun ld =>
    { name := "async-agent-client"
      version := VERSION
      description := "Python client for Async Agent API"
      long_description := ld
      long_description_content_type := "text/markdown"
      author := "Async Agent Team"
      license := "MIT"
      packages := find_packages fs.packageDirs includePatterns excludePatterns
      python_requires := python_requires
      install_requires := install_requires
      classifiers := classifiers
      keywords := keywords })

/-- The argument record `setupCall` produces on success: the long description
is the README contents, or empty when the file is absent. -/
def argsOf (fs : FileSystem) : SetupArgs :=
  { name := "async-agent-client"
    version := VERSION
    description := "Python client for Async Agent API"
    long_description := fs.readme.getD ""
    long_description_content_type := "text/markdown"
    author := "Async Agent Team"
    license := "MIT"
    packages := find_packages fs.packageDirs includePatterns excludePatterns
    python_requires := python_requires
    install_requires := install_requires
    classifiers := classifiers
    keywords := keywords }

/-- The setup call never raises: in every filesystem state it succeeds with
the record `argsOf`. -/
theorem setupCall_ok (fs : FileSystem) : setupCall fs = Except.ok (argsOf fs) := by
  obtain ⟨readme, dirs⟩ := fs
  cases readme <;> rfl

/-- The `">=3.8"` specifier is satisfied exactly by the versions at least
(3, 8) in the PEP 440 order. -/
theorem satisfiesSpec_python_requires (v : PyVersion) :
    satisfiesSpec python_requires v = PyVersion.le ⟨3, 8⟩ v := by
  have h1 : strStartsWith python_requires ">=" = true := by decide
  have h2 : parseVersion (strDrop python_requires 2) = some ⟨3, 8⟩ := by decide
  simp [satisfiesSpec, h1, h2]

/-- The common prefix of the version-specific Python classifiers. -/
def pythonClassifierTag : String := "Programming Language :: Python :: "

/-- The interpreter versions named by the classifier list: the two-component
versions following the Python classifier tag (the bare
"Programming Language :: Python :: 3" entry carries no minor version and
contributes nothing). -/
def classifierVersions : List PyVersion :=
  classifiers.filterMap (fun c =>
    if strStartsWith c pythonClassifierTag then
      parseVersion (strDrop c pythonClassifierTag.toList.length)
    else none)

/-- The license classifiers of the classifier list. -/
def licenseClassifiers : List String :=
  classifiers.filter (fun c => strStartsWith c "License ::")

/-- The names of the keyword arguments of the setup call, in source order
(lines 7-32). -/
def setupKwargs : List String :=
  ["name", "version", "description", "long_description",
   "long_description_content_type", "author", "license", "packages",
   "python_requires", "install_requires", "classifiers", "keywords"]

/-- Modelled from the claim wording: the pure-metadata setup fields the
descriptor is allowed to pass. -/
def pureMetadataFields : List String :=
  ["name", "version", "description", "long_description",
   "long_description_content_type", "author", "license", "packages",
   "python_requires", "install_requires", "classifiers", "keywords"]

/-- Claim C1, counterexample: Python 3.13 lies outside the range 3.8-3.12
(it exceeds 3.12 in the version order) yet satisfies the declared
python_requires constraint ">=3.8", so the supported set is not exactly
3.8 through 3.12. -/
theorem C1_counterexample :
    satisfiesSpec python_requires ⟨3, 13⟩ = true ∧
    PyVersion.le ⟨3, 13⟩ ⟨3, 12⟩ = false := by
  exact ⟨by decide, by decide⟩

/-- Claim C1, amended: the python_requires constraint ">=3.8" is satisfied by
exactly the versions at least 3.8, with no upper bound, so every version in
3.8-3.12 satisfies it and no version below 3.8 does; the 3.12 upper end of
the advertised range appears only in the classifier list, whose
version-specific Python classifiers name exactly 3.8, 3.9, 3.10, 3.11
and 3.12. -/
theorem C1_amended :
    (∀ v : PyVersion, satisfiesSpec python_requires v = PyVersion.le ⟨3, 8⟩ v) ∧
    classifierVersions = [⟨3, 8⟩, ⟨3, 9⟩, ⟨3, 10⟩, ⟨3, 11⟩, ⟨3, 12⟩] := by
  refine ⟨satisfiesSpec_python_requires, by decide⟩

/-- Claim C2: install_requires declares exactly three requirements, and each
parses as a bare name with a single ">=" lower bound and nothing else:
httpx at 0.23.0, attrs at 21.3.0 and python-dateutil at 2.8.0. -/
theorem C2_install_requires :
    install_requires.map parseRequirement =
      [some ("httpx", [0, 23, 0]), some ("attrs", [21, 3, 0]),
       some ("python-dateutil", [2, 8, 0])] := by
  decide

/-- Claim C3: every module path in the set produced by the package discovery
of the setup call matches neither the exclude pattern "tests" nor the
exclude pattern "tests.*". -/
theorem C3_no_tests_package (cands : List String) (p : String)
    (h : p ∈ find_packages cands includePatterns excludePatterns) :
    fnmatch "tests" p = false ∧ fnmatch "tests.*" p = false := by
  rw [find_packages] at h
  rcases List.mem_filter.mp h with ⟨-, hf⟩
  rw [excludePatterns] at hf
  simp only [List.any_cons, List.any_nil, Bool.and_eq_true, Bool.not_eq_true',
    Bool.or_eq_false_iff] at hf
  exact ⟨hf.2.1, hf.2.2.1⟩

/-- Witness for C3 at a concrete discovery outcome: "asyncagent" survives the
filter among candidates that include "tests" and "tests.unit", and matches
neither exclude pattern. -/
theorem C3_no_tests_package_witness :
    fnmatch "tests" "asyncagent" = false ∧ fnmatch "tests.*" "asyncagent" = false :=
  C3_no_tests_package ["asyncagent", "tests", "tests.unit"] "asyncagent" (by decide)

/-- Claim C4: every interpreter version v with 3.8 <= v <= 3.12 satisfies the
declared python_requires constraint ">=3.8", so the declared constraint
admits installation under each of Python 3.8, 3.9, 3.10, 3.11 and 3.12. -/
theorem C4_range_satisfies (v : PyVersion)
    (h1 : PyVersion.le ⟨3, 8⟩ v = true) (h2 : PyVersion.le v ⟨3, 12⟩ = true) :
    satisfiesSpec python_requires v = true := by
  rw [satisfiesSpec_python_requires, h1]

/-- Witness for C4 at version 3.10. -/
theorem C4_range_satisfies_witness :
    satisfiesSpec python_requires ⟨3, 10⟩ = true :=
  C4_range_satisfies ⟨3, 10⟩ (by decide) (by decide)

/-- Claim C5: in every filesystem state the setup call succeeds with package
name "async-agent-client" and version equal to the VERSION constant, which is
the string "0.1.0". -/
theorem C5_name_version (fs : FileSystem) :
    ∃ a, setupCall fs = Except.ok a ∧ a.name = "async-agent-client" ∧
      a.version = VERSION ∧ VERSION = "0.1.0" :=
  ⟨argsOf fs, setupCall_ok fs, rfl, rfl, rfl⟩

/-- Claim C6: in every filesystem state the setup call succeeds with license
"MIT", and the classifier list carries exactly one license classifier, namely
"License :: OSI Approved :: MIT License". -/
theorem C6_license_mit (fs : FileSystem) :
    ∃ a, setupCall fs = Except.ok a ∧ a.license = "MIT" ∧
      a.classifiers = classifiers ∧
      licenseClassifiers = ["License :: OSI Approved :: MIT License"] :=
  ⟨argsOf fs, setupCall_ok fs, rfl, rfl, by decide⟩

/-- Claim C7: every keyword argument of the setup call is one of the
pure-metadata fields, and in particular no entry-point, script or
environment-variable configuration is passed. -/
theorem C7_only_metadata_kwargs :
    setupKwargs.all (fun k => pureMetadataFields.contains k) = true ∧
    setupKwargs.contains "entry_points" = false ∧
    setupKwargs.contains "scripts" = false ∧
    setupKwargs.contains "env" = false := by
  decide

/-- Claim C8: the keywords string, split on spaces, contains the token
"openapi", alongside "async-agent" and "api-client". -/
theorem C8_keywords_openapi :
    (splitOnStr " " keywords).contains "openapi" = true ∧
    (splitOnStr " " keywords).contains "async-agent" = true ∧
    (splitOnStr " " keywords).contains "api-client" = true := by
  decide

/-- Claim C9: the long_description computation never raises: in every
filesystem state the setup call succeeds, the long description is the README
contents when README.md exists, and the empty string when it does not. -/
theorem C9_long_description_total (fs : FileSystem) :
    setupCall fs = Except.ok (argsOf fs) ∧
    (argsOf fs).long_description = fs.readme.getD "" :=
  ⟨setupCall_ok fs, rfl⟩

/-- Claim C10, counterexample: two filesystem states that differ only in the
discovered package candidates produce setup arguments with equal
long_description but different packages, so long_description is not the only
field that may differ between two runs. -/
theorem C10_counterexample :
    setupCall ⟨none, ["asyncagent"]⟩ = Except.ok (argsOf ⟨none, ["asyncagent"]⟩) ∧
    setupCall ⟨none, []⟩ = Except.ok (argsOf ⟨none, []⟩) ∧
    (argsOf ⟨none, ["asyncagent"]⟩).long_description
      = (argsOf ⟨none, []⟩).long_description ∧
    (argsOf ⟨none, ["asyncagent"]⟩).packages ≠ (argsOf ⟨none, []⟩).packages :=
  ⟨setupCall_ok _, setupCall_ok _, by decide, by decide⟩

/-- Claim C10, amended: for any two filesystem states the setup call succeeds
in both, and the name, version, description, content type, author, license,
python_requires, install_requires, classifiers and keywords arguments are
identical; only long_description and packages may differ between two runs. -/
theorem C10_amended (fs1 fs2 : FileSystem) :
    ∃ a1 a2, setupCall fs1 = Except.ok a1 ∧ setupCall fs2 = Except.ok a2 ∧
      a1.name = a2.name ∧ a1.version = a2.version ∧
      a1.description = a2.description ∧
      a1.long_description_content_type = a2.long_description_content_type ∧
      a1.author = a2.author ∧ a1.license = a2.license ∧
      a1.python_requires = a2.python_requires ∧
      a1.install_requires = a2.install_requires ∧
      a1.classifiers = a2.classifiers ∧ a1.keywords = a2.keywords :=
  ⟨argsOf fs1, argsOf fs2, setupCall_ok fs1, setupCall_ok fs2,
   rfl, rfl, rfl, rfl, rfl, rfl, rfl, rfl, rfl, rfl⟩

end AsyncAgentClient
